import Mathlib

/-!
# Verification of the order-checkout core of tienda-calzados-marilo

Shallow embedding of the stock reservation/restoration engine
(`src/orders/utils.py`), the checkout views and the Stripe payment
confirmation endpoints (`src/orders/views.py`), and the environment
configuration (`src/tienda_calzados_marilo/env.py`).

Conventions of the embedding:
* Django's `@transaction.atomic` / `with transaction.atomic()` blocks are
  modelled by `Except`-valued functions: an error result carries no state,
  which is exactly the rollback semantics of an exception escaping an
  atomic block.  The state a caller observes after a failed call is made
  explicit by small "runner" functions (e.g. `applyReserve`).
* `TallaZapato` rows (one stock counter per `(zapato, talla)` pair) are an
  association list from keys `(zapato id, talla)` to the integer `stock`
  column; `select_for_update().get(...)` is `stockFind`, `save()` after a
  field assignment is `stockSet`.  A key that is absent models
  `TallaZapato.DoesNotExist`.
* Python `Decimal` arithmetic is exact rational arithmetic (`ℚ`);
  `Decimal.quantize(Decimal("0.01"))` with the default `ROUND_HALF_EVEN`
  is `quantize2`.
* Wall-clock age of an order (`timezone.now() - order.fecha_creacion`,
  converted to minutes) is carried directly as a rational field
  `ageMinutes` of the order record.
-/

/-- A row of `catalog.models.Zapato` restricted to the columns the order
core reads: `id`, `nombre`, `precio : IntegerField`, and the nullable
`precioOferta : IntegerField`. -/
structure ZapatoRef where
  id : Nat
  nombre : String
  precio : Int
  precioOferta : Option Int
deriving Repr, DecidableEq

/-- Python truthiness of the nullable integer column `precioOferta` as used
in `if zapato.precioOferta:` — both `None` and `0` are falsy. -/
def ZapatoRef.ofertaTruthy (z : ZapatoRef) : Bool :=
  match z.precioOferta with
  | none => false
  | some v => v != 0

/-- Key of a `TallaZapato` row: the `(zapato id, talla)` pair. -/
abbrev StockKey := Nat × Int

/-- The `TallaZapato` table: an association list from `(zapato id, talla)`
to the `stock` integer column.  The checkout core treats the pair as a key
(`.get(zapato=..., talla=...)`), so each key occurs at most once in any
state the repository produces. -/
abbrev Stock := List (StockKey × Int)

/-- `TallaZapato.objects.get(zapato=z, talla=t)`: first row with the key,
`none` for `TallaZapato.DoesNotExist`. -/
def stockFind : Stock → StockKey → Option Int
  | [], _ => none
  | (k, v) :: rest, key => if k = key then some v else stockFind rest key

/-- Assigning the `stock` field of a fetched row and calling `save()`:
replaces the value at the first occurrence of the key, identity if the row
does not exist. -/
def stockSet : Stock → StockKey → Int → Stock
  | [], _, _ => []
  | (k, v) :: rest, key, newVal =>
    if k = key then (k, newVal) :: rest else (k, v) :: stockSet rest key newVal

/-- Deletion of a `TallaZapato` row by catalog management (removes every
row with the key). -/
def stockErase (s : Stock) (key : StockKey) : Stock :=
  s.filter (fun kv => kv.1 ≠ key)

/-- The dynamic value found under the `"cantidad"` key of a cart dict:
either a Python `int` or a value of some other type. -/
inductive RawVal where
  | intVal (n : Int)
  | nonInt
deriving Repr, DecidableEq

/-- The three keys of a cart-item dict, each possibly missing. -/
structure CartDict where
  zapato : Option ZapatoRef
  talla : Option Int
  cantidad : Option RawVal
deriving Repr, DecidableEq

/-- An element of the `cart_items` list handed to `reserve_stock` /
`calculate_order_prices`: a dict, or a value of some other type. -/
inductive CartItem where
  | dict (d : CartDict)
  | nonDict
deriving Repr, DecidableEq

/-- A convenient constructor for the well-formed cart item
`{"zapato": z, "talla": t, "cantidad": c}`. -/
def mkItem (z : ZapatoRef) (t : Int) (c : Int) : CartItem :=
  .dict ⟨some z, some t, some (.intVal c)⟩

/-- The distinct `ValueError`s raised by `reserve_stock`
(`src/orders/utils.py:96-166`), one constructor per message. -/
inductive ReserveError where
  | emptyCart
  | itemNotDict (i : Nat)
  | missingZapato (i : Nat)
  | missingTalla (i : Nat)
  | missingCantidad (i : Nat)
  | cantidadNotInt (i : Nat)
  | cantidadNotPositive (i : Nat)
  | cantidadTooLarge (i : Nat) (c : Int)
  | unknownSize (nombre : String) (talla : Int)
  | insufficientStock (nombre : String) (talla : Int) (available : Int) (requested : Int)
deriving Repr, DecidableEq

/-- A cart line whose dict shape and quantity have passed the validation
loop of `reserve_stock` (lines 118-137). -/
structure VItem where
  zapato : ZapatoRef
  talla : Int
  cantidad : Int
deriving Repr, DecidableEq

/-- Key of the stock row a validated line refers to. -/
def VItem.key (v : VItem) : StockKey := (v.zapato.id, v.talla)

/-- The validation loop of `reserve_stock` (lines 118-137), started at
index `i`: checks, per item and in source order, that it is a dict, has
the `zapato` / `talla` / `cantidad` keys, and that `cantidad` is an `int`
with `0 < cantidad ≤ 10000`; returns the extracted lines on success. -/
def validateItemsFrom (i : Nat) : List CartItem → Except ReserveError (List VItem)
  | [] => .ok []
  | item :: rest =>
    match item with
    | .nonDict => .error (.itemNotDict i)
    | .dict d =>
      match d.zapato with
      | none => .error (.missingZapato i)
      | some z =>
        match d.talla with
        | none => .error (.missingTalla i)
        | some t =>
          match d.cantidad with
          | none => .error (.missingCantidad i)
          | some .nonInt => .error (.cantidadNotInt i)
          | some (.intVal c) =>
            if c ≤ 0 then .error (.cantidadNotPositive i)
            else if c > 10000 then .error (.cantidadTooLarge i c)
            else do
              let vs ← validateItemsFrom (i + 1) rest
              pure (⟨z, t, c⟩ :: vs)

/-- The read-only sufficiency loop of `reserve_stock` (lines 140-154):
every referenced row must exist and hold at least the requested quantity.
No mutation happens here. -/
def checkStockLoop (s : Stock) : List VItem → Except ReserveError Unit
  | [] => .ok ()
  | v :: rest =>
    match stockFind s v.key with
    | none => .error (.unknownSize v.zapato.nombre v.talla)
    | some st =>
      if st < v.cantidad then
        .error (.insufficientStock v.zapato.nombre v.talla st v.cantidad)
      else checkStockLoop s rest

/-- The deduction loop of `reserve_stock` (lines 157-164): re-fetches each
row and writes back `stock - cantidad`.  The `.get` can in principle raise
`DoesNotExist` (modelled as an error, which the surrounding transaction
turns into a rollback); `deductLoop_ok` below proves this never happens
after `checkStockLoop` has passed. -/
def deductLoop (s : Stock) : List VItem → Except ReserveError Stock
  | [] => .ok s
  | v :: rest =>
    match stockFind s v.key with
    | none => .error (.unknownSize v.zapato.nombre v.talla)
    | some st => deductLoop (stockSet s v.key (st - v.cantidad)) rest

/-- `reserve_stock(cart_items)` (`src/orders/utils.py:96-166`), a
`@transaction.atomic` function: an `Except.error` result means the
exception escaped the atomic block and every mutation was rolled back. -/
def reserve_stock (s : Stock) (items : List CartItem) : Except ReserveError Stock :=
  if items.isEmpty then .error .emptyCart
  else do
    let vs ← validateItemsFrom 0 items
    checkStockLoop s vs
    deductLoop s vs

/-- The stock state a caller observes after `reserve_stock` together with
the error surfaced, making the rollback-on-error semantics of the atomic
block explicit. -/
def applyReserve (s : Stock) (items : List CartItem) : Stock × Option ReserveError :=
  match reserve_stock s items with
  | .ok s' => (s', none)
  | .error e => (s, some e)

/-- A row of `orders.models.OrderItem`: the product/size/quantity columns
`restore_stock` reads (`item.zapato.id`, `item.zapato.nombre`,
`item.talla`, `item.cantidad`) plus the price-snapshot columns written at
creation time (`precio_unitario`, `total`, `descuento`). -/
structure OrderItemRec where
  zapatoId : Nat
  zapatoNombre : String
  talla : Int
  cantidad : Int
  precio_unitario : ℚ := 0
  total : ℚ := 0
  descuento : ℚ := 0
deriving Repr, DecidableEq

/-- Key of the stock row an order item refers to. -/
def OrderItemRec.key (it : OrderItemRec) : StockKey := (it.zapatoId, it.talla)

/-- One element of the list returned by `restore_stock`. -/
structure RestoredItem where
  zapatoNombre : String
  zapatoId : Nat
  talla : Int
  cantidad : Int
deriving Repr, DecidableEq

/-- `restore_stock(order)` (`src/orders/utils.py:169-210`): for each item
of the order, re-fetch the `TallaZapato` row, add the item quantity back
and record the restoration; a row that no longer exists
(`TallaZapato.DoesNotExist`) is skipped.  The function never fails. -/
def restore_stock (s : Stock) : List OrderItemRec → Stock × List RestoredItem
  | [] => (s, [])
  | it :: rest =>
    match stockFind s it.key with
    | none => restore_stock s rest
    | some st =>
      let s' := stockSet s it.key (st + it.cantidad)
      let (s'', lst) := restore_stock s' rest
      (s'', ⟨it.zapatoNombre, it.zapatoId, it.talla, it.cantidad⟩ :: lst)

/-- The `OrderItem` row created from a validated cart line by
`create_order_from_items` (`src/orders/utils.py:536-555`): the unit price
is snapshotted from the offer price when truthy, otherwise the regular
price, and the per-line discount is `(precio - precioOferta) * cantidad`. -/
def VItem.toOrderItem (v : VItem) : OrderItemRec :=
  let precioUnitario : ℚ :=
    if v.zapato.ofertaTruthy then ((v.zapato.precioOferta.getD 0 : ℤ) : ℚ)
    else ((v.zapato.precio : ℤ) : ℚ)
  let descuento : ℚ :=
    if v.zapato.ofertaTruthy then (((v.zapato.precio : ℤ) : ℚ) - precioUnitario) * v.cantidad
    else 0
  { zapatoId := v.zapato.id
    zapatoNombre := v.zapato.nombre
    talla := v.talla
    cantidad := v.cantidad
    precio_unitario := precioUnitario
    total := precioUnitario * v.cantidad
    descuento := descuento }

/-- Round a rational to an integer, ties to even — the default
`ROUND_HALF_EVEN` of Python `Decimal`. -/
def roundHalfEvenInt (q : ℚ) : ℤ :=
  let f : ℤ := ⌊q⌋
  let r : ℚ := q - (f : ℚ)
  if r < 1 / 2 then f
  else if 1 / 2 < r then f + 1
  else if f % 2 = 0 then f else f + 1

/-- `Decimal.quantize(Decimal("0.01"))`: round to two decimal places,
ties to even. -/
def quantize2 (q : ℚ) : ℚ := (roundHalfEvenInt (q * 100) : ℚ) / 100

/-- The configuration slice of `EnvConfig`
(`src/tienda_calzados_marilo/env.py`) that the order core reads.  Window
lengths are the integers read by `getIntFromEnv`; rates are the exact
values of `Decimal(str(float))` for floats with a short decimal
expansion. -/
structure EnvConfig where
  TAX_RATE : ℚ
  DELIVERY_COST : ℚ
  CHECKOUT_FORM_WINDOW_MINUTES : Int
  PAYMENT_WINDOW_MINUTES : Int
  CLEANUP_CRON_MINUTES : Int
deriving Repr, DecidableEq

/-- `EnvConfig.get_order_reservation_minutes`
(`src/tienda_calzados_marilo/env.py:35-41`):
`CHECKOUT_FORM_WINDOW_MINUTES + PAYMENT_WINDOW_MINUTES + 5`. -/
def EnvConfig.get_order_reservation_minutes (c : EnvConfig) : Int :=
  c.CHECKOUT_FORM_WINDOW_MINUTES + c.PAYMENT_WINDOW_MINUTES + 5

/-- The defaults of `getEnvConfig` (`env.py:108-112`): tax 21.0 %,
delivery 5.0, form window 10 min, payment window 5 min, cron 5 min. -/
def defaultEnvConfig : EnvConfig :=
  { TAX_RATE := 21
    DELIVERY_COST := 5
    CHECKOUT_FORM_WINDOW_MINUTES := 10
    PAYMENT_WINDOW_MINUTES := 5
    CLEANUP_CRON_MINUTES := 5 }

/-- The errors that can escape `calculate_order_prices`: the explicit
`ValueError` on an empty cart, and the untyped crash (`KeyError` /
`TypeError`) Python raises when the loop body reads `item["zapato"]` or
multiplies by a non-integer `item["cantidad"]` on a malformed item. -/
inductive PriceError where
  | emptyCart
  | crash
deriving Repr, DecidableEq

/-- The accumulation loop of `calculate_order_prices` (lines 66-78):
returns `(subtotal, descuento_total)`.  Uses the offer price when
`zapato.precioOferta` is truthy, accumulating the per-line discount. -/
def priceLoop : List CartItem → Except PriceError (ℚ × ℚ)
  | [] => .ok (0, 0)
  | .nonDict :: _ => .error .crash
  | .dict d :: rest =>
    match d.zapato, d.cantidad with
    | some z, some (.intVal c) => do
      let (sub, desc) ← priceLoop rest
      if z.ofertaTruthy then
        let precioUnitario : ℚ := (z.precioOferta.getD 0 : ℤ)
        let precioOriginal : ℚ := (z.precio : ℤ)
        pure (precioUnitario * c + sub, (precioOriginal - precioUnitario) * c + desc)
      else
        pure ((z.precio : ℤ) * (c : ℚ) + sub, desc)
    | _, _ => .error .crash

/-- The dict returned by `calculate_order_prices`. -/
structure PriceResult where
  subtotal : ℚ
  impuestos : ℚ
  coste_entrega : ℚ
  total : ℚ
  descuento : ℚ
deriving Repr, DecidableEq

/-- `calculate_order_prices(cart_items, delivery_cost, tax_rate)`
(`src/orders/utils.py:29-93`): validates non-emptiness, falls back to the
env-config delivery cost and tax rate when the overrides are `None`,
accumulates subtotal and discount, computes
`impuestos = quantize2((subtotal + delivery) * tax / 100)` and
`total = subtotal + delivery + impuestos`, quantizing the reported
subtotal, total and discount. -/
def calculate_order_prices (cfg : EnvConfig) (cart_items : List CartItem)
    (delivery_cost : Option ℚ) (tax_rate : Option ℚ) : Except PriceError PriceResult :=
  if cart_items.isEmpty then .error .emptyCart
  else do
    let delivery := delivery_cost.getD cfg.DELIVERY_COST
    let tax := tax_rate.getD cfg.TAX_RATE
    let (subtotal, descuento) ← priceLoop cart_items
    let baseImponible := subtotal + delivery
    let impuestos := quantize2 (baseImponible * tax / 100)
    let total := subtotal + delivery + impuestos
    pure { subtotal := quantize2 subtotal
           impuestos := impuestos
           coste_entrega := delivery
           total := quantize2 total
           descuento := quantize2 descuento }

/-- A row of `orders.models.Order` restricted to the columns the verified
code touches.  `codigo` stands for the opaque alphanumeric
`codigo_pedido` (unique); `ageMinutes` is the order's wall-clock age
`timezone.now() - fecha_creacion` in minutes at the moment the modelled
request runs; `items` is the `items` reverse relation. -/
structure WebOrder where
  id : Nat
  codigo : Nat
  usuario : Option Nat
  pagado : Bool
  ageMinutes : ℚ
  metodo_pago : String := "tarjeta"
  subtotal : ℚ := 0
  impuestos : ℚ := 0
  coste_entrega : ℚ := 0
  total : ℚ := 0
  nombre : String := ""
  apellido : String := ""
  email : String := ""
  telefono : String := ""
  direccion_envio : String := ""
  ciudad_envio : String := ""
  codigo_postal_envio : String := ""
  direccion_facturacion : String := ""
  ciudad_facturacion : String := ""
  codigo_postal_facturacion : String := ""
  items : List OrderItemRec := []
deriving Repr, DecidableEq

/-- The persistent state the checkout/payment views read and write: the
`TallaZapato` table, the `Order` table (with its `OrderItem` children
inlined), the number of confirmation emails handed to
`send_order_confirmation_email`, and the id the database would give the
next inserted order row. -/
structure WebDB where
  stock : Stock
  orders : List WebOrder
  emailsSent : Nat
  nextId : Nat
deriving Repr, DecidableEq

/-- `Order.objects.get(id=oid)`: `none` for `Order.DoesNotExist`. -/
def findOrder (db : WebDB) (oid : Nat) : Option WebOrder :=
  db.orders.find? (fun o => o.id = oid)

/-- `Order.objects.get(id=oid, pagado=False)`. -/
def findUnpaidOrder (db : WebDB) (oid : Nat) : Option WebOrder :=
  db.orders.find? (fun o => o.id = oid && o.pagado = false)

/-- `Order.objects.get(codigo_pedido=c)`. -/
def findOrderByCodigo (db : WebDB) (c : Nat) : Option WebOrder :=
  db.orders.find? (fun o => o.codigo = c)

/-- Mutating a fetched order row and calling `save()`: applies `f` to the
row with the given id. -/
def updateOrder (db : WebDB) (oid : Nat) (f : WebOrder → WebOrder) : WebDB :=
  { db with orders := db.orders.map (fun o => if o.id = oid then f o else o) }

/-- `order.pagado = True; order.save(); send_order_confirmation_email(order)` —
the single paid transition plus one confirmation notification. -/
def markPaidAndEmail (db : WebDB) (oid : Nat) : WebDB :=
  let db' := updateOrder db oid (fun o => { o with pagado := true })
  { db' with emailsSent := db'.emailsSent + 1 }

/-- The failure cases `create_order_from_items` reports through its
`error_message` string (`src/orders/utils.py:460-567`). -/
inductive CreateError where
  | emptyCart
  | reserveError (e : ReserveError)
  | codeExhausted
  | itemInsertFailed
deriving Repr, DecidableEq

/-- Outcome of the code-retry loop of `create_order_from_items`
(lines 494-530): each attempt draws the next generated code, reserves the
stock inside the per-attempt `transaction.atomic()` block, and inserts the
order row; an `IntegrityError` on a colliding code rolls the reservation
back and retries, a `ValueError` from `reserve_stock` aborts. -/
inductive AttemptOut where
  | reserveFail (e : ReserveError)
  | exhausted
  | created (stock : Stock) (code : Nat)
deriving Repr, DecidableEq

/-- The retry loop body: `codes` is the stream of values produced by
`generate_order_code()` on the successive attempts (the caller passes one
code per allowed attempt, five in the source), `existing` the codes
already in the `Order` table (the unique constraint). -/
def codeRetryLoop (s : Stock) (cart : List CartItem) (existing : List Nat) :
    List Nat → AttemptOut
  | [] => .exhausted
  | code :: restCodes =>
    match reserve_stock s cart with
    | .error e => .reserveFail e
    | .ok s' =>
      if code ∈ existing then codeRetryLoop s cart existing restCodes
      else .created s' code

/-- Result of `create_order_from_items`: the database state the caller
observes, the `order` return value (by id), the `success` flag and the
`error_message`. -/
structure CreateOutcome where
  db : WebDB
  order : Option Nat
  success : Bool
  error : Option CreateError
deriving Repr, DecidableEq

/-- `create_order_from_items(cart_items, user, request)`
(`src/orders/utils.py:460-567`).

* `codes` — the five values `generate_order_code()` yields.
* `itemFailAt = some n` injects the untyped exception the
  `except Exception` at line 563 catches while inserting the `n`-th
  `OrderItem` (a non-database error, so the surrounding transaction
  commits what exists); `none` means every insert succeeds.
* A `.error .crash` result is an exception that escapes the function
  (malformed cart dict read by `calculate_order_prices` before any
  mutation), rolling back everything.

On the injected item failure the source deliberately keeps the created
order and the reservation: "Stock is already reserved, so we should not
restore it here. The cleanup job will handle this if payment isn't
completed." -/
def create_order_from_items (db : WebDB) (cart : List CartItem) (user : Option Nat)
    (codes : List Nat) (itemFailAt : Option Nat) : Except PriceError CreateOutcome :=
  if cart.isEmpty then .ok ⟨db, none, false, some .emptyCart⟩
  else do
    let prices ← calculate_order_prices defaultEnvConfig cart none none
    match codeRetryLoop db.stock cart (db.orders.map (·.codigo)) codes with
    | .reserveFail e => .ok ⟨db, none, false, some (.reserveError e)⟩
    | .exhausted => .ok ⟨db, none, false, some .codeExhausted⟩
    | .created stock' code =>
      match validateItemsFrom 0 cart with
      | .error _ => .error .crash
      | .ok vs =>
        let oid := db.nextId
        let allItems := vs.map VItem.toOrderItem
        let newOrder : WebOrder :=
          { id := oid, codigo := code, usuario := user, pagado := false
            ageMinutes := 0, metodo_pago := "tarjeta"
            subtotal := prices.subtotal, impuestos := prices.impuestos
            coste_entrega := prices.coste_entrega, total := prices.total }
        match itemFailAt with
        | some n =>
          let db' : WebDB :=
            { stock := stock'
              orders := db.orders ++ [{ newOrder with items := allItems.take n }]
              emailsSent := db.emailsSent
              nextId := oid + 1 }
          .ok ⟨db', some oid, false, some .itemInsertFailed⟩
        | none =>
          let db' : WebDB :=
            { stock := stock'
              orders := db.orders ++ [{ newOrder with items := allItems }]
              emailsSent := db.emailsSent
              nextId := oid + 1 }
          .ok ⟨db', some oid, true, none⟩

/-- Total quantity a list of restoration records reports for one
`(zapato, talla)` key. -/
def restoredQty (lst : List RestoredItem) (k : StockKey) : Int :=
  (lst.filter (fun r => (r.zapatoId, r.talla) = k)).foldr (fun r a => r.cantidad + a) 0

/-- The per-order loop of `cleanup_expired_orders` (lines 615-626): for
each selected order restore its stock, count it, count its restored item
rows, and fold the restorations into the
`zapato_id -> talla -> cantidad` aggregation dict (modelled as the
finitely supported function it represents).  The order row itself is
deleted by the caller's final filter. -/
def cleanupLoop (s : Stock) : List WebOrder → Stock × Nat × Nat × (StockKey → Int)
  | [] => (s, 0, 0, fun _ => 0)
  | o :: rest =>
    let (s', restored) := restore_stock s o.items
    let (s'', dc, ric, agg) := cleanupLoop s' rest
    (s'', dc + 1, restored.length + ric, fun k => restoredQty restored k + agg k)

/-- The observability summary `cleanup_expired_orders` returns:
`deleted_count`, `restored_items` (total `OrderItem` rows restored), and
the per-`(zapato, talla)` aggregate of restored quantities (the source
renders this map as a list of per-shoe dicts with sorted `tallas`). -/
structure CleanupResult where
  deleted_count : Nat
  restored_items : Nat
  stock_details : StockKey → Int

/-- Whether `cleanup_expired_orders` selects an order:
`pagado=False` and `fecha_creacion < now - reservation_minutes`,
i.e. age strictly above `get_order_reservation_minutes`. -/
def isExpiredUnpaid (cfg : EnvConfig) (o : WebOrder) : Bool :=
  o.pagado = false && decide ((cfg.get_order_reservation_minutes : ℚ) < o.ageMinutes)

/-- `cleanup_expired_orders()` (`src/orders/utils.py:570-637`), a
`@transaction.atomic` function: select the unpaid orders older than the
reservation window, restore and delete each, and report the summary. -/
def cleanup_expired_orders (cfg : EnvConfig) (db : WebDB) : WebDB × CleanupResult :=
  let expired := db.orders.filter (isExpiredUnpaid cfg)
  let (s', dc, ric, agg) := cleanupLoop db.stock expired
  ({ db with stock := s'
             orders := db.orders.filter (fun o => !isExpiredUnpaid cfg o) },
   { deleted_count := dc, restored_items := ric, stock_details := agg })

/-- The `_get_order` helper shared verbatim by `CheckoutContactView`,
`CheckoutShippingView`, `CheckoutBillingView` and `CheckoutPaymentView`
(`src/orders/views.py`): resolve the session's `checkout_order_id` to an
order that exists and is unpaid, and reject it when an authenticated
caller differs from the order's non-null owner.  No age check happens
here. -/
def getCheckoutOrder (db : WebDB) (sessionOrderId : Option Nat) (user : Option Nat) :
    Option WebOrder :=
  match sessionOrderId with
  | none => none
  | some oid =>
    match findUnpaidOrder db oid with
    | none => none
    | some o =>
      match user, o.usuario with
      | some u, some v => if v ≠ u then none else some o
      | _, _ => some o

/-- Responses of a checkout form-step `post`: redirect back to checkout
start (order expired/missing), re-render the step (form invalid), or
redirect to the next step. -/
inductive StepResp where
  | redirectStart
  | renderStep
  | redirectNext
deriving Repr, DecidableEq

/-- The cleaned data of a valid `ContactInfoForm`. -/
structure ContactForm where
  nombre : String
  apellido : String
  email : String
  telefono : String
deriving Repr, DecidableEq

/-- `CheckoutContactView.post` (`src/orders/views.py:186-215`): resolve
the order via `_get_order`, validate the form (`none` models an invalid
submission), store the contact fields and move on.  The source performs
no age/window check in this step. -/
def checkoutContactPost (db : WebDB) (sessionOrderId : Option Nat) (user : Option Nat)
    (form : Option ContactForm) : WebDB × StepResp :=
  match getCheckoutOrder db sessionOrderId user with
  | none => (db, .redirectStart)
  | some o =>
    match form with
    | none => (db, .renderStep)
    | some f =>
      (updateOrder db o.id (fun x =>
        { x with nombre := f.nombre, apellido := f.apellido
                 email := f.email, telefono := f.telefono }),
       .redirectNext)

/-- The cleaned data of a valid `ShippingAddressForm`. -/
structure ShippingForm where
  direccion_envio : String
  ciudad_envio : String
  codigo_postal_envio : String
deriving Repr, DecidableEq

/-- `CheckoutShippingView.post` (`src/orders/views.py:268-296`): same
shape as the contact step, storing the shipping address block; again no
age/window check. -/
def checkoutShippingPost (db : WebDB) (sessionOrderId : Option Nat) (user : Option Nat)
    (form : Option ShippingForm) : WebDB × StepResp :=
  match getCheckoutOrder db sessionOrderId user with
  | none => (db, .redirectStart)
  | some o =>
    match form with
    | none => (db, .renderStep)
    | some f =>
      (updateOrder db o.id (fun x =>
        { x with direccion_envio := f.direccion_envio
                 ciudad_envio := f.ciudad_envio
                 codigo_postal_envio := f.codigo_postal_envio }),
       .redirectNext)

/-- The cleaned data of a valid `BillingAddressForm`. -/
structure BillingForm where
  direccion_facturacion : String
  ciudad_facturacion : String
  codigo_postal_facturacion : String
deriving Repr, DecidableEq

/-- `CheckoutBillingView.post` (`src/orders/views.py:349-377`): same
shape as the contact step, storing the billing address block; again no
age/window check. -/
def checkoutBillingPost (db : WebDB) (sessionOrderId : Option Nat) (user : Option Nat)
    (form : Option BillingForm) : WebDB × StepResp :=
  match getCheckoutOrder db sessionOrderId user with
  | none => (db, .redirectStart)
  | some o =>
    match form with
    | none => (db, .renderStep)
    | some f =>
      (updateOrder db o.id (fun x =>
        { x with direccion_facturacion := f.direccion_facturacion
                 ciudad_facturacion := f.ciudad_facturacion
                 codigo_postal_facturacion := f.codigo_postal_facturacion }),
       .redirectNext)

/-- Responses of `CheckoutPaymentView.get`. -/
inductive PayGetResp where
  | redirectStart
  | formWindowExpired
  | renderPayment
deriving Repr, DecidableEq

/-- `CheckoutPaymentView.get` (`src/orders/views.py:398-431`): after
`_get_order`, reject with the "tiempo para iniciar el pago ha expirado"
message when the order's age exceeds `CHECKOUT_FORM_WINDOW_MINUTES`; this
is the only place the form window is enforced.  The step mutates
nothing. -/
def checkoutPaymentGet (cfg : EnvConfig) (db : WebDB) (sessionOrderId : Option Nat)
    (user : Option Nat) : PayGetResp :=
  match getCheckoutOrder db sessionOrderId user with
  | none => .redirectStart
  | some o =>
    if ((cfg.CHECKOUT_FORM_WINDOW_MINUTES : ℚ) < o.ageMinutes) then .formWindowExpired
    else .renderPayment

/-- Responses of `CheckoutPaymentView.post`. -/
inductive PayResp where
  | redirectStart
  | windowExpired
  | stripeRedirect (url : String)
  | renderPayment
  | successRedirect (codigo : Nat)
deriving Repr, DecidableEq

/-- `CheckoutPaymentView.post` (`src/orders/views.py:448-555`):

* `form` — the cleaned `metodo_pago` of a valid `PaymentMethodForm`
  (`none` models an invalid submission).
* `stripeKeyConfigured` — presence of `STRIPE_SECRET_KEY`.
* `stripeCreate` — outcome of `stripe.checkout.Session.create`
  (`some url` redirects the shopper there, `none` is a raised exception
  surfaced as an error message).  The third component of the result
  records whether this outbound gateway call was made at all.

The total window `CHECKOUT_FORM_WINDOW_MINUTES + PAYMENT_WINDOW_MINUTES`
is enforced before the form is even read; for the non-card method
(`contrarembolso`) `process_payment` always succeeds, the order is marked
paid and one confirmation email is sent. -/
def checkoutPaymentPost (cfg : EnvConfig) (db : WebDB) (sessionOrderId : Option Nat)
    (user : Option Nat) (form : Option String) (stripeKeyConfigured : Bool)
    (stripeCreate : Option String) : WebDB × PayResp × Bool :=
  match getCheckoutOrder db sessionOrderId user with
  | none => (db, .redirectStart, false)
  | some o =>
    let totalWindow := cfg.CHECKOUT_FORM_WINDOW_MINUTES + cfg.PAYMENT_WINDOW_MINUTES
    if ((totalWindow : ℚ) < o.ageMinutes) then (db, .windowExpired, false)
    else
      match form with
      | none => (db, .renderPayment, false)
      | some metodo =>
        let db1 := updateOrder db o.id (fun x => { x with metodo_pago := metodo })
        if metodo = "tarjeta" then
          if ¬stripeKeyConfigured then (db1, .renderPayment, false)
          else
            match stripeCreate with
            | some url => (db1, .stripeRedirect url, true)
            | none => (db1, .renderPayment, true)
        else
          (markPaidAndEmail db1 o.id, .successRedirect o.codigo, false)

/-- A Stripe webhook delivery as seen by `StripeWebhookView.post`:
whether `stripe.Webhook.construct_event` accepts the signature, the event
`type`, the `order_id` carried in the data object's metadata, and the
payment outcome the event reports.  The handler reads `type` only in the
dead re-read at line 583 and never reads the payment outcome. -/
structure StripeEvent where
  sigValid : Bool
  type : String
  metaOrderId : Option Nat
  paymentStatus : String
deriving Repr, DecidableEq

/-- Responses of `StripeWebhookView.post`. -/
inductive WebhookResp where
  | badRequest
  | received
deriving Repr, DecidableEq

/-- `StripeWebhookView.post` (`src/orders/views.py:561-598`): reject when
the webhook secret is missing or the signature is invalid; otherwise look
up the order named by the metadata and, when it exists and is unpaid,
mark it paid and send one confirmation email.  A missing order is
swallowed.  The answer is `{"received": True}` in every non-rejected
case. -/
def stripeWebhookPost (db : WebDB) (webhookSecretConfigured : Bool) (ev : StripeEvent) :
    WebDB × WebhookResp :=
  if ¬webhookSecretConfigured then (db, .badRequest)
  else if ¬ev.sigValid then (db, .badRequest)
  else
    let orderId := ev.metaOrderId
    let orderId := if orderId.isNone && ev.type = "checkout.session.completed"
                   then ev.metaOrderId else orderId
    match orderId with
    | none => (db, .received)
    | some oid =>
      match findOrder db oid with
      | none => (db, .received)
      | some o =>
        if ¬o.pagado then (markPaidAndEmail db oid, .received)
        else (db, .received)

/-- The Checkout Session `StripeReturnView.get` retrieves from the
gateway for the `session_id` query parameter: the metadata it echoes and
its `payment_status`. -/
structure GatewaySession where
  metaOrderId : Option Nat
  payment_status : String
deriving Repr, DecidableEq

/-- Responses of `StripeReturnView.get`. -/
inductive ReturnResp where
  | redirectSuccess (codigo : Nat)
  | renderValidating
deriving Repr, DecidableEq

/-- The tail of `StripeReturnView.get` (lines 673-678): already-paid
orders redirect to the success page, everything else renders the
"validating" page that polls. -/
def returnFallback (db : WebDB) (order : Option WebOrder) : WebDB × ReturnResp :=
  match order with
  | some o => if o.pagado then (db, .redirectSuccess o.codigo) else (db, .renderValidating)
  | none => (db, .renderValidating)

/-- `StripeReturnView.get` (`src/orders/views.py:611-678`):

* `sessionOrderId` — the session's `checkout_order_id`;
* `codigoParam` — the `codigo` query-parameter fallback;
* `sessionIdPresent` / `stripeConfigured` — whether a `session_id` query
  parameter and `STRIPE_SECRET_KEY` exist;
* `retrieved` — the result of `stripe.checkout.Session.retrieve`
  (`none` is a raised exception: the handler falls back to the
  validating page so the webhook can still settle the order).

Only a gateway-reported `payment_status == "paid"` can mutate state:
it marks a found unpaid order paid, emails once, and redirects to the
success page. -/
def stripeReturnGet (db : WebDB) (sessionOrderId : Option Nat) (codigoParam : Option Nat)
    (sessionIdPresent : Bool) (stripeConfigured : Bool)
    (retrieved : Option GatewaySession) : WebDB × ReturnResp :=
  let order0 := sessionOrderId.bind (findOrder db)
  let order1 :=
    match order0, codigoParam with
    | none, some c => findOrderByCodigo db c
    | o, _ => o
  if sessionIdPresent && stripeConfigured then
    match retrieved with
    | none => returnFallback db order1
    | some gs =>
      let order2 :=
        match order1 with
        | none => gs.metaOrderId.bind (findOrder db)
        | some o => some o
      if gs.payment_status = "paid" then
        match order2 with
        | some o =>
          if ¬o.pagado then (markPaidAndEmail db o.id, .redirectSuccess o.codigo)
          else (db, .redirectSuccess o.codigo)
        | none => returnFallback db none
      else returnFallback db order2
  else returnFallback db order1

/-- Total quantity a list of validated cart lines requests for one
`(zapato, talla)` key. -/
def reqQty (vs : List VItem) (k : StockKey) : Int :=
  (vs.filter (fun v => v.key = k)).foldr (fun v a => v.cantidad + a) 0

/-- Total quantity a list of order items carries for one key. -/
def itemsReq (items : List OrderItemRec) (k : StockKey) : Int :=
  (items.filter (fun it => it.key = k)).foldr (fun it a => it.cantidad + a) 0

/-- The restoration record `restore_stock` appends for an order item. -/
def OrderItemRec.toRestored (it : OrderItemRec) : RestoredItem :=
  ⟨it.zapatoNombre, it.zapatoId, it.talla, it.cantidad⟩

/-- The `(zapato, talla)` keys a raw cart references (empty when the cart
does not pass validation). -/
def cartKeys (items : List CartItem) : List StockKey :=
  match validateItemsFrom 0 items with
  | .ok vs => vs.map VItem.key
  | .error _ => []

/-- Per-key quantity a raw cart requests (0 when the cart does not pass
validation). -/
def cartReq (items : List CartItem) (k : StockKey) : Int :=
  match validateItemsFrom 0 items with
  | .ok vs => reqQty vs k
  | .error _ => 0

/-- A sequence of `reserve_stock` calls, serialized the way the row locks
serialize concurrent callers; each failed call leaves the stock as it
was. -/
def reserveRun (s : Stock) : List (List CartItem) → Stock
  | [] => s
  | cart :: rest => reserveRun (applyReserve s cart).1 rest

/-- Per-key sum of the quantities taken by the calls of a sequence that
succeeded. -/
def successfulReq (s : Stock) (carts : List (List CartItem)) (k : StockKey) : Int :=
  match carts with
  | [] => 0
  | cart :: rest =>
    match reserve_stock s cart with
    | .ok s' => cartReq cart k + successfulReq s' rest k
    | .error _ => successfulReq s rest k

/-- Every stock counter in the table is non-negative. -/
def stockNonneg (s : Stock) : Prop :=
  ∀ k v, stockFind s k = some v → 0 ≤ v

theorem stockFind_stockSet_isSome (s : Stock) (k k' : StockKey) (v : Int) :
    (stockFind (stockSet s k v) k').isSome = (stockFind s k').isSome := by
  induction s with
  | nil => rfl
  | cons kv rest ih =>
    obtain ⟨k₀, v₀⟩ := kv
    by_cases h : k₀ = k
    · subst h
      by_cases h' : k₀ = k' <;> simp [stockSet, stockFind, h']
    · by_cases h' : k₀ = k'
      · subst h'
        simp [stockSet, stockFind, h]
      · simp [stockSet, stockFind, h, h', ih]

theorem stockFind_stockSet_self (s : Stock) (k : StockKey) (v : Int)
    (h : (stockFind s k).isSome) : stockFind (stockSet s k v) k = some v := by
  induction s with
  | nil => simp [stockFind] at h
  | cons kv rest ih =>
    obtain ⟨k₀, v₀⟩ := kv
    by_cases h0 : k₀ = k
    · subst h0
      simp [stockSet, stockFind]
    · simp only [stockFind, if_neg h0] at h
      simp [stockSet, stockFind, h0, ih h]

theorem stockFind_stockSet_ne (s : Stock) (k k' : StockKey) (v : Int) (h : k' ≠ k) :
    stockFind (stockSet s k v) k' = stockFind s k' := by
  induction s with
  | nil => rfl
  | cons kv rest ih =>
    obtain ⟨k₀, v₀⟩ := kv
    by_cases h0 : k₀ = k
    · subst h0
      have hk : ¬k₀ = k' := fun hh => h (hh.symm)
      simp [stockSet, stockFind, hk]
    · by_cases h1 : k₀ = k'
      · subst h1
        simp [stockSet, stockFind, h0]
      · simp [stockSet, stockFind, h0, h1, ih]

theorem reqQty_cons (v : VItem) (rest : List VItem) (k : StockKey) :
    reqQty (v :: rest) k = (if v.key = k then v.cantidad else 0) + reqQty rest k := by
  by_cases h : v.key = k <;> simp [reqQty, List.filter_cons, h]

theorem reqQty_not_mem (vs : List VItem) (k : StockKey) (h : k ∉ vs.map VItem.key) :
    reqQty vs k = 0 := by
  induction vs with
  | nil => rfl
  | cons v rest ih =>
    simp only [List.map_cons, List.mem_cons] at h
    push_neg at h
    rw [reqQty_cons, if_neg (fun he => h.1 he.symm), ih h.2]
    ring

theorem reqQty_nodup_mem (vs : List VItem) (h : (vs.map VItem.key).Nodup)
    (v : VItem) (hv : v ∈ vs) : reqQty vs v.key = v.cantidad := by
  induction vs with
  | nil => cases hv
  | cons w rest ih =>
    rw [List.map_cons, List.nodup_cons] at h
    rcases List.mem_cons.mp hv with hvw | hv'
    · subst hvw
      rw [reqQty_cons, if_pos rfl, reqQty_not_mem rest _ h.1]
      ring
    · have hne : w.key ≠ v.key := fun he => h.1 (he ▸ List.mem_map_of_mem VItem.key hv')
      rw [reqQty_cons, if_neg hne, ih h.2 hv']
      ring

theorem checkStockLoop_mem (s : Stock) (vs : List VItem) (h : checkStockLoop s vs = .ok ())
    (v : VItem) (hv : v ∈ vs) : ∃ st, stockFind s v.key = some st ∧ v.cantidad ≤ st := by
  induction vs with
  | nil => cases hv
  | cons w rest ih =>
    cases hfind : stockFind s w.key with
    | none => simp [checkStockLoop, hfind] at h
    | some st =>
      by_cases hlt : st < w.cantidad
      · simp [checkStockLoop, hfind, hlt] at h
      · simp only [checkStockLoop, hfind, if_neg hlt] at h
        rcases List.mem_cons.mp hv with hvw | hv'
        · subst hvw
          exact ⟨st, hfind, le_of_not_lt hlt⟩
        · exact ih h hv'

theorem deductLoop_find (vs : List VItem) (s s' : Stock)
    (h : deductLoop s vs = .ok s') (k : StockKey) :
    stockFind s' k = (stockFind s k).map (fun x => x - reqQty vs k) := by
  induction vs generalizing s with
  | nil =>
    obtain rfl : s = s' := by simpa [deductLoop] using h
    cases stockFind s k <;> simp [reqQty]
  | cons v rest ih =>
    cases hfind : stockFind s v.key with
    | none => simp [deductLoop, hfind] at h
    | some st =>
      simp only [deductLoop, hfind] at h
      have hrec := ih _ h
      by_cases hk : v.key = k
      · subst hk
        rw [stockFind_stockSet_self _ _ _ (by simp [hfind])] at hrec
        rw [hrec, hfind, reqQty_cons, if_pos rfl]
        simp only [Option.map_some']
        exact congrArg some (by ring)
      · rw [stockFind_stockSet_ne _ _ _ _ (fun he => hk he.symm)] at hrec
        rw [hrec, reqQty_cons, if_neg hk]
        cases stockFind s k with
        | none => rfl
        | some x =>
          simp only [Option.map_some']
          exact congrArg some (by ring)

theorem deductLoop_isOk (vs : List VItem) (s : Stock)
    (h : ∀ v ∈ vs, (stockFind s v.key).isSome) :
    ∃ s', deductLoop s vs = .ok s' := by
  induction vs generalizing s with
  | nil => exact ⟨s, rfl⟩
  | cons v rest ih =>
    have hv := h v (List.mem_cons_self v rest)
    cases hfind : stockFind s v.key with
    | none => rw [hfind] at hv; simp at hv
    | some st =>
      obtain ⟨s', hs'⟩ := ih (stockSet s v.key (st - v.cantidad)) (fun w hw => by
        rw [stockFind_stockSet_isSome]
        exact h w (List.mem_cons_of_mem _ hw))
      exact ⟨s', by simp [deductLoop, hfind, hs']⟩

theorem except_bind_ok {α β γ : Type} (x : Except α β) (f : β → Except α γ) (c : γ)
    (h : (x >>= f) = .ok c) : ∃ b, x = .ok b ∧ f b = .ok c := by
  cases x with
  | error e => simp [Bind.bind, Except.bind] at h
  | ok b => exact ⟨b, rfl, by simpa [Bind.bind, Except.bind] using h⟩

theorem reserve_stock_ok_inv (s s' : Stock) (items : List CartItem)
    (h : reserve_stock s items = .ok s') :
    ∃ vs, validateItemsFrom 0 items = .ok vs ∧ checkStockLoop s vs = .ok () ∧
      deductLoop s vs = .ok s' := by
  unfold reserve_stock at h
  by_cases he : items.isEmpty
  · simp [he] at h
  · rw [if_neg (by simpa using he)] at h
    obtain ⟨vs, hval, h2⟩ := except_bind_ok _ _ _ h
    obtain ⟨u, hchk, h3⟩ := except_bind_ok _ _ _ h2
    obtain ⟨⟩ := u
    exact ⟨vs, hval, hchk, h3⟩

theorem reserve_stock_find (s s' : Stock) (items : List CartItem)
    (h : reserve_stock s items = .ok s') (k : StockKey) :
    stockFind s' k = (stockFind s k).map (fun x => x - cartReq items k) := by
  obtain ⟨vs, hval, _, hded⟩ := reserve_stock_ok_inv s s' items h
  rw [cartReq, hval]
  exact deductLoop_find vs s s' hded k

theorem reserve_preserves_nonneg (s s' : Stock) (items : List CartItem)
    (hn : (cartKeys items).Nodup) (h : reserve_stock s items = .ok s')
    (hpos : stockNonneg s) : stockNonneg s' := by
  obtain ⟨vs, hval, hchk, hded⟩ := reserve_stock_ok_inv s s' items h
  rw [cartKeys, hval] at hn
  intro k v hfind
  have hf := deductLoop_find vs s s' hded k
  rw [hfind] at hf
  cases hs : stockFind s k with
  | none => rw [hs] at hf; simp at hf
  | some x =>
    rw [hs] at hf
    simp only [Option.map_some', Option.some.injEq] at hf
    by_cases hk : k ∈ vs.map VItem.key
    · obtain ⟨w, hw, hwk⟩ := List.mem_map.mp hk
      have hreq : reqQty vs k = w.cantidad := by
        rw [← hwk]
        exact reqQty_nodup_mem vs hn w hw
      obtain ⟨st, hst, hle⟩ := checkStockLoop_mem s vs hchk w hw
      rw [hwk, hs] at hst
      have hxe : x = st := by injection hst
      rw [hreq] at hf
      omega
    · rw [reqQty_not_mem vs k hk] at hf
      have := hpos k x hs
      omega

theorem reserveRun_spec (carts : List (List CartItem)) (s : Stock)
    (hn : ∀ cart ∈ carts, (cartKeys cart).Nodup) (hpos : stockNonneg s) :
    stockNonneg (reserveRun s carts) ∧
    ∀ k, stockFind (reserveRun s carts) k =
      (stockFind s k).map (fun x => x - successfulReq s carts k) := by
  induction carts generalizing s with
  | nil =>
    refine ⟨hpos, fun k => ?_⟩
    show stockFind s k = (stockFind s k).map (fun x => x - 0)
    cases stockFind s k <;> simp
  | cons cart rest ih =>
    have hrun : reserveRun s (cart :: rest) = reserveRun (applyReserve s cart).1 rest := rfl
    cases hres : reserve_stock s cart with
    | ok s1 =>
      have happ : (applyReserve s cart).1 = s1 := by simp [applyReserve, hres]
      have hpos1 :=
        reserve_preserves_nonneg s s1 cart (hn cart (List.mem_cons_self _ _)) hres hpos
      obtain ⟨ha, hb⟩ := ih s1 (fun c hc => hn c (List.mem_cons_of_mem _ hc)) hpos1
      rw [hrun, happ]
      refine ⟨ha, fun k => ?_⟩
      rw [hb k, reserve_stock_find s s1 cart hres k]
      have hsq : successfulReq s (cart :: rest) k = cartReq cart k + successfulReq s1 rest k := by
        simp [successfulReq, hres]
      rw [hsq]
      cases stockFind s k with
      | none => rfl
      | some x =>
        simp only [Option.map_some']
        exact congrArg some (by ring)
    | error e =>
      have happ : (applyReserve s cart).1 = s := by simp [applyReserve, hres]
      obtain ⟨ha, hb⟩ := ih s (fun c hc => hn c (List.mem_cons_of_mem _ hc)) hpos
      rw [hrun, happ]
      refine ⟨ha, fun k => ?_⟩
      rw [hb k]
      have hsq : successfulReq s (cart :: rest) k = successfulReq s rest k := by
        simp [successfulReq, hres]
      rw [hsq]

theorem stockNonneg_single (k₀ : StockKey) (v₀ : Int) (h : 0 ≤ v₀) :
    stockNonneg [(k₀, v₀)] := by
  intro k v hf
  by_cases hk : k₀ = k
  · rw [stockFind, if_pos hk] at hf
    injection hf with he
    omega
  · rw [stockFind, if_neg hk] at hf
    simp [stockFind] at hf

/-- **C1** (amended: the carts of the sequence must not repeat a
`(product, size)` key within one call — see the counterexample).  For a
stock table with non-negative quantities, a serialized sequence of
`reserve_stock` calls keeps every quantity non-negative, each final
quantity equals its initial value minus the total taken by the successful
calls, and that total never exceeds the initial quantity. -/
theorem C1_reserve_sequences_no_oversell (s : Stock) (carts : List (List CartItem))
    (hn : ∀ cart ∈ carts, (cartKeys cart).Nodup) (hpos : stockNonneg s) :
    stockNonneg (reserveRun s carts) ∧
    (∀ k, stockFind (reserveRun s carts) k =
      (stockFind s k).map (fun x => x - successfulReq s carts k)) ∧
    (∀ k v, stockFind s k = some v → successfulReq s carts k ≤ v) := by
  obtain ⟨ha, hb⟩ := reserveRun_spec carts s hn hpos
  refine ⟨ha, hb, fun k v hv => ?_⟩
  have hk := hb k
  rw [hv] at hk
  simp only [Option.map_some'] at hk
  have hnn := ha k _ hk
  omega

/-- **C1** counterexample to the claim as stated: a single `reserve_stock`
call whose cart lists the same `(product, size)` key on two lines passes
the per-line sufficiency checks against the unmodified stock and then
decrements twice, driving the quantity to `-1` instead of failing with
the insufficient-stock error. -/
theorem C1_counterexample_duplicate_lines_oversell :
    reserve_stock [((1, 42), 1)]
      [mkItem ⟨1, "X", 100, none⟩ 42 1, mkItem ⟨1, "X", 100, none⟩ 42 1] =
      .ok [((1, 42), -1)] ∧
    stockFind [((1, 42), -1)] (1, 42) = some (-1) ∧ (-1 : Int) < 0 :=
  ⟨rfl, rfl, by decide⟩

/-- Witness for `C1_reserve_sequences_no_oversell`: three units, two
sequential reservations of two units each — the first succeeds, the
second fails, the final quantity is `1 ≥ 0`. -/
theorem C1_reserve_sequences_no_oversell_witness :
    stockNonneg (reserveRun [((1, 42), 3)]
      [[mkItem ⟨1, "X", 100, none⟩ 42 2], [mkItem ⟨1, "X", 100, none⟩ 42 2]]) ∧
    (∀ k, stockFind (reserveRun [((1, 42), 3)]
      [[mkItem ⟨1, "X", 100, none⟩ 42 2], [mkItem ⟨1, "X", 100, none⟩ 42 2]]) k =
      (stockFind [((1, 42), 3)] k).map (fun x => x - successfulReq [((1, 42), 3)]
        [[mkItem ⟨1, "X", 100, none⟩ 42 2], [mkItem ⟨1, "X", 100, none⟩ 42 2]] k)) ∧
    (∀ k v, stockFind [((1, 42), 3)] k = some v → successfulReq [((1, 42), 3)]
      [[mkItem ⟨1, "X", 100, none⟩ 42 2], [mkItem ⟨1, "X", 100, none⟩ 42 2]] k ≤ v) :=
  C1_reserve_sequences_no_oversell [((1, 42), 3)]
    [[mkItem ⟨1, "X", 100, none⟩ 42 2], [mkItem ⟨1, "X", 100, none⟩ 42 2]]
    (by decide) (stockNonneg_single _ _ (by decide))

/-- **C2**: `reserve_stock` is all-or-nothing.  Whenever the call surfaces
an error the observed stock table is exactly the input table (the atomic
block rolled back), and each of the validation conditions the claim lists
— empty cart, non-dict item, missing `zapato`/`talla`/`cantidad` key,
non-integer quantity, quantity ≤ 0, quantity > 10000, unknown size,
insufficient stock — fails with its corresponding error; the quantity
checks fire before any stock lookup. -/
theorem C2_reserve_validation_all_or_nothing (s : Stock) (items : List CartItem)
    (z : ZapatoRef) (t c : Int) :
    ((applyReserve s items).2.isSome → (applyReserve s items).1 = s) ∧
    (reserve_stock s [] = .error .emptyCart) ∧
    (reserve_stock s [CartItem.nonDict] = .error (.itemNotDict 0)) ∧
    (reserve_stock s [.dict ⟨none, some t, some (.intVal c)⟩] = .error (.missingZapato 0)) ∧
    (reserve_stock s [.dict ⟨some z, none, some (.intVal c)⟩] = .error (.missingTalla 0)) ∧
    (reserve_stock s [.dict ⟨some z, some t, none⟩] = .error (.missingCantidad 0)) ∧
    (reserve_stock s [.dict ⟨some z, some t, some .nonInt⟩] = .error (.cantidadNotInt 0)) ∧
    (c ≤ 0 → reserve_stock s [mkItem z t c] = .error (.cantidadNotPositive 0)) ∧
    (10000 < c → reserve_stock s [mkItem z t c] = .error (.cantidadTooLarge 0 c)) ∧
    (0 < c → c ≤ 10000 → stockFind s (z.id, t) = none →
      reserve_stock s [mkItem z t c] = .error (.unknownSize z.nombre t)) ∧
    (∀ st, 0 < c → c ≤ 10000 → stockFind s (z.id, t) = some st → st < c →
      reserve_stock s [mkItem z t c] = .error (.insufficientStock z.nombre t st c)) := by
  refine ⟨?_, rfl, rfl, rfl, rfl, rfl, rfl, ?_, ?_, ?_, ?_⟩
  · intro hsome
    cases hres : reserve_stock s items with
    | ok s1 =>
      exfalso
      simp [applyReserve, hres] at hsome
    | error e => simp [applyReserve, hres]
  · intro hc
    simp [reserve_stock, validateItemsFrom, mkItem, hc, Bind.bind, Except.bind]
  · intro hc
    have h1 : ¬c ≤ 0 := by omega
    simp [reserve_stock, validateItemsFrom, mkItem, h1, hc, Bind.bind, Except.bind]
  · intro h0 h1 hfind
    have h2 : ¬c ≤ 0 := by omega
    have h3 : ¬10000 < c := by omega
    simp [reserve_stock, validateItemsFrom, mkItem, h2, h3, checkStockLoop, VItem.key,
      hfind, Bind.bind, Except.bind, pure, Except.pure]
  · intro st h0 h1 hfind hlt
    have h2 : ¬c ≤ 0 := by omega
    have h3 : ¬10000 < c := by omega
    simp [reserve_stock, validateItemsFrom, mkItem, h2, h3, checkStockLoop, VItem.key,
      hfind, hlt, Bind.bind, Except.bind, pure, Except.pure]

/-- Witness for `C2_reserve_validation_all_or_nothing` at concrete inputs:
quantity 0 and quantity 10001 are rejected, size 43 is unknown, requesting
3 of 2 is insufficient, and the failed call leaves the table unchanged. -/
theorem C2_reserve_validation_all_or_nothing_witness :
    reserve_stock [((1, 42), 2)] [mkItem ⟨1, "X", 100, none⟩ 42 0] =
      .error (.cantidadNotPositive 0) ∧
    reserve_stock [((1, 42), 2)] [mkItem ⟨1, "X", 100, none⟩ 42 10001] =
      .error (.cantidadTooLarge 0 10001) ∧
    reserve_stock [((1, 42), 2)] [mkItem ⟨1, "X", 100, none⟩ 43 1] =
      .error (.unknownSize "X" 43) ∧
    reserve_stock [((1, 42), 2)] [mkItem ⟨1, "X", 100, none⟩ 42 3] =
      .error (.insufficientStock "X" 42 2 3) ∧
    (applyReserve [((1, 42), 2)] [mkItem ⟨1, "X", 100, none⟩ 42 3]).1 = [((1, 42), 2)] :=
  ⟨(C2_reserve_validation_all_or_nothing [((1, 42), 2)] [] ⟨1, "X", 100, none⟩ 42
      0).2.2.2.2.2.2.2.1 (by decide),
   (C2_reserve_validation_all_or_nothing [((1, 42), 2)] [] ⟨1, "X", 100, none⟩ 42
      10001).2.2.2.2.2.2.2.2.1 (by decide),
   (C2_reserve_validation_all_or_nothing [((1, 42), 2)] [] ⟨1, "X", 100, none⟩ 43
      1).2.2.2.2.2.2.2.2.2.1 (by decide) (by decide) rfl,
   (C2_reserve_validation_all_or_nothing [((1, 42), 2)] [] ⟨1, "X", 100, none⟩ 42
      3).2.2.2.2.2.2.2.2.2.2 2 (by decide) (by decide) rfl (by decide),
   (C2_reserve_validation_all_or_nothing [((1, 42), 2)]
      [mkItem ⟨1, "X", 100, none⟩ 42 3] ⟨1, "X", 100, none⟩ 42 3).1 rfl⟩

theorem itemsReq_cons (it : OrderItemRec) (rest : List OrderItemRec) (k : StockKey) :
    itemsReq (it :: rest) k = (if it.key = k then it.cantidad else 0) + itemsReq rest k := by
  by_cases h : it.key = k <;> simp [itemsReq, List.filter_cons, h]

theorem itemsReq_map_toOrderItem (vs : List VItem) (k : StockKey) :
    itemsReq (vs.map VItem.toOrderItem) k = reqQty vs k := by
  induction vs with
  | nil => rfl
  | cons v rest ih =>
    rw [List.map_cons, itemsReq_cons, reqQty_cons, ih]
    have hk : (VItem.toOrderItem v).key = v.key := rfl
    have hc : (VItem.toOrderItem v).cantidad = v.cantidad := rfl
    rw [hk, hc]

theorem restore_stock_find (items : List OrderItemRec) (s : Stock) (k : StockKey) :
    stockFind (restore_stock s items).1 k =
      (stockFind s k).map (fun x => x + itemsReq items k) := by
  induction items generalizing s with
  | nil =>
    show stockFind s k = (stockFind s k).map (fun x => x + itemsReq [] k)
    cases stockFind s k <;> simp [itemsReq]
  | cons it rest ih =>
    cases hfind : stockFind s it.key with
    | none =>
      have h1 : (restore_stock s (it :: rest)).1 = (restore_stock s rest).1 := by
        simp [restore_stock, hfind]
      by_cases hk : it.key = k
      · subst hk
        rw [h1, ih, hfind]
        rfl
      · rw [h1, ih, itemsReq_cons, if_neg hk]
        cases stockFind s k with
        | none => rfl
        | some x =>
          simp only [Option.map_some']
          exact congrArg some (by ring)
    | some st =>
      have h1 : (restore_stock s (it :: rest)).1 =
          (restore_stock (stockSet s it.key (st + it.cantidad)) rest).1 := by
        simp [restore_stock, hfind]
      rw [h1, ih]
      by_cases hk : it.key = k
      · subst hk
        rw [stockFind_stockSet_self _ _ _ (by simp [hfind]), hfind, itemsReq_cons, if_pos rfl]
        simp only [Option.map_some']
        exact congrArg some (by ring)
      · rw [stockFind_stockSet_ne _ _ _ _ (fun he => hk he.symm), itemsReq_cons, if_neg hk]
        cases stockFind s k with
        | none => rfl
        | some x =>
          simp only [Option.map_some']
          exact congrArg some (by ring)

theorem restore_stock_isSome (items : List OrderItemRec) (s : Stock) (k : StockKey) :
    (stockFind (restore_stock s items).1 k).isSome = (stockFind s k).isSome := by
  rw [restore_stock_find]
  cases stockFind s k <;> rfl

theorem restore_stock_list (items : List OrderItemRec) (s : Stock) :
    (restore_stock s items).2 = items.filterMap (fun it =>
      if (stockFind s it.key).isSome then some it.toRestored else none) := by
  induction items generalizing s with
  | nil => rfl
  | cons it rest ih =>
    cases hfind : stockFind s it.key with
    | none =>
      have h1 : (restore_stock s (it :: rest)).2 = (restore_stock s rest).2 := by
        simp [restore_stock, hfind]
      rw [h1, ih, List.filterMap_cons]
      simp [hfind]
    | some st =>
      have h1 : (restore_stock s (it :: rest)).2 =
          it.toRestored ::
            (restore_stock (stockSet s it.key (st + it.cantidad)) rest).2 := by
        simp [restore_stock, hfind, OrderItemRec.toRestored]
      rw [h1, ih, List.filterMap_cons]
      simp only [hfind, Option.isSome_some, if_true]
      congr 1
      apply List.filterMap_congr
      intro a _
      rw [stockFind_stockSet_isSome]

theorem stockFind_stockErase (s : Stock) (k k' : StockKey) :
    stockFind (stockErase s k) k' = if k' = k then none else stockFind s k' := by
  induction s with
  | nil =>
    by_cases h : k' = k <;> simp [stockErase, stockFind, h]
  | cons kv rest ih =>
    obtain ⟨k₀, v₀⟩ := kv
    by_cases h0 : k₀ = k
    · have h2 : stockErase ((k₀, v₀) :: rest) k = stockErase rest k := by
        simp [stockErase, List.filter_cons, h0]
      rw [h2, ih]
      by_cases h1 : k' = k
      · simp [h1]
      · have h3 : ¬k₀ = k' := fun he => h1 (by rw [← he, h0])
        simp [h1, stockFind, h3]
    · have h2 : stockErase ((k₀, v₀) :: rest) k = (k₀, v₀) :: stockErase rest k := by
        simp [stockErase, List.filter_cons, h0]
      rw [h2]
      by_cases h1 : k₀ = k'
      · have h4 : ¬k' = k := fun he => h0 (by rw [h1, he])
        simp [stockFind, h1, h4]
      · simp only [stockFind, if_neg h1]
        rw [ih]

theorem stockFind_foldl_erase (deleted : List StockKey) (s : Stock) (k : StockKey) :
    stockFind (deleted.foldl stockErase s) k =
      if k ∈ deleted then none else stockFind s k := by
  induction deleted generalizing s with
  | nil => simp
  | cons d rest ih =>
    rw [List.foldl_cons, ih]
    by_cases hk : k ∈ rest
    · simp [hk]
    · by_cases hd : k = d
      · subst hd
        simp [hk, stockFind_stockErase]
      · simp [hk, hd, stockFind_stockErase]

/-- **C9**: reservation/restoration round-trip.  If `reserve_stock`
succeeds on a cart and some `TallaZapato` rows are deleted afterwards,
then `restore_stock` over the order's items (the snapshot of that cart)
never fails, returns every still-existing row exactly to its
pre-reservation quantity, leaves deleted rows deleted (skipping them),
and reports exactly the restorations it performed. -/
theorem C9_restore_after_reserve_round_trip (s s' : Stock) (items : List CartItem)
    (vs : List VItem) (deleted : List StockKey)
    (hval : validateItemsFrom 0 items = .ok vs)
    (hres : reserve_stock s items = .ok s') :
    (∀ k, (stockFind (deleted.foldl stockErase s') k).isSome →
      stockFind (restore_stock (deleted.foldl stockErase s')
        (vs.map VItem.toOrderItem)).1 k = stockFind s k) ∧
    (∀ k, stockFind (deleted.foldl stockErase s') k = none →
      stockFind (restore_stock (deleted.foldl stockErase s')
        (vs.map VItem.toOrderItem)).1 k = none) ∧
    (restore_stock (deleted.foldl stockErase s') (vs.map VItem.toOrderItem)).2 =
      (vs.map VItem.toOrderItem).filterMap (fun it =>
        if (stockFind (deleted.foldl stockErase s') it.key).isSome then
          some it.toRestored else none) := by
  refine ⟨fun k hk => ?_, fun k hk => ?_, restore_stock_list _ _⟩
  · rw [restore_stock_find, itemsReq_map_toOrderItem]
    rw [stockFind_foldl_erase] at hk ⊢
    by_cases hdel : k ∈ deleted
    · simp [hdel] at hk
    · rw [if_neg hdel] at hk ⊢
      have hcr : cartReq items k = reqQty vs k := by rw [cartReq, hval]
      have hs' := reserve_stock_find s s' items hres k
      rw [hcr] at hs'
      rw [hs']
      cases hsk : stockFind s k with
      | none => rw [hsk] at hs'; rw [hs'] at hk; simp at hk
      | some x =>
        simp only [Option.map_some']
        exact congrArg some (by ring)
  · rw [restore_stock_find, hk]
    rfl

/-- Witness for `C9_restore_after_reserve_round_trip`: two rows, a cart
taking from both, the second row deleted after the reservation — the
surviving row returns to 5, the deleted one stays gone, and only the
surviving restoration is reported. -/
theorem C9_restore_after_reserve_round_trip_witness :
    (∀ k, (stockFind ([((2 : Nat), (40 : Int))].foldl stockErase
        [((1, 42), 3), ((2, 40), 4)]) k).isSome →
      stockFind (restore_stock ([((2 : Nat), (40 : Int))].foldl stockErase
        [((1, 42), 3), ((2, 40), 4)])
        ([⟨⟨1, "X", 100, none⟩, 42, 2⟩, ⟨⟨2, "Y", 50, none⟩, 40, 3⟩].map
          VItem.toOrderItem)).1 k =
        stockFind [((1, 42), 5), ((2, 40), 7)] k) ∧
    (∀ k, stockFind ([((2 : Nat), (40 : Int))].foldl stockErase
        [((1, 42), 3), ((2, 40), 4)]) k = none →
      stockFind (restore_stock ([((2 : Nat), (40 : Int))].foldl stockErase
        [((1, 42), 3), ((2, 40), 4)])
        ([⟨⟨1, "X", 100, none⟩, 42, 2⟩, ⟨⟨2, "Y", 50, none⟩, 40, 3⟩].map
          VItem.toOrderItem)).1 k = none) ∧
    (restore_stock ([((2 : Nat), (40 : Int))].foldl stockErase
        [((1, 42), 3), ((2, 40), 4)])
      ([⟨⟨1, "X", 100, none⟩, 42, 2⟩, ⟨⟨2, "Y", 50, none⟩, 40, 3⟩].map
        VItem.toOrderItem)).2 =
      ([⟨⟨1, "X", 100, none⟩, 42, 2⟩, ⟨⟨2, "Y", 50, none⟩, 40, 3⟩].map
        VItem.toOrderItem).filterMap (fun it =>
        if (stockFind ([((2 : Nat), (40 : Int))].foldl stockErase
            [((1, 42), 3), ((2, 40), 4)]) it.key).isSome then
          some it.toRestored else none) :=
  C9_restore_after_reserve_round_trip [((1, 42), 5), ((2, 40), 7)]
    [((1, 42), 3), ((2, 40), 4)]
    [mkItem ⟨1, "X", 100, none⟩ 42 2, mkItem ⟨2, "Y", 50, none⟩ 40 3]
    [⟨⟨1, "X", 100, none⟩, 42, 2⟩, ⟨⟨2, "Y", 50, none⟩, 40, 3⟩]
    [((2 : Nat), (40 : Int))] rfl rfl

theorem restoredQty_cons (r : RestoredItem) (l : List RestoredItem) (k : StockKey) :
    restoredQty (r :: l) k =
      (if (r.zapatoId, r.talla) = k then r.cantidad else 0) + restoredQty l k := by
  by_cases h : (r.zapatoId, r.talla) = k <;> simp [restoredQty, List.filter_cons, h]

theorem restoredQty_restore (items : List OrderItemRec) (s : Stock) (k : StockKey)
    (hk : (stockFind s k).isSome) :
    restoredQty (restore_stock s items).2 k = itemsReq items k := by
  rw [restore_stock_list]
  induction items with
  | nil => rfl
  | cons it rest ih =>
    rw [List.filterMap_cons, itemsReq_cons]
    by_cases hik : it.key = k
    · rw [if_pos (by rw [hik]; exact hk)]
      rw [restoredQty_cons]
      have hkey : ((it.toRestored).zapatoId, (it.toRestored).talla) = it.key := rfl
      rw [hkey, if_pos hik, ih]
      have hc : (it.toRestored).cantidad = it.cantidad := rfl
      rw [hc, if_pos hik]
    · by_cases hp : (stockFind s it.key).isSome
      · rw [if_pos hp, restoredQty_cons]
        have hkey : ((it.toRestored).zapatoId, (it.toRestored).talla) = it.key := rfl
        rw [hkey, if_neg hik, ih, if_neg hik]
      · rw [if_neg hp, ih, if_neg hik]
        ring

theorem cleanupLoop_spec (orders : List WebOrder) (s : Stock) :
    (cleanupLoop s orders).2.1 = orders.length ∧
    ∀ k, stockFind (cleanupLoop s orders).1 k =
      (stockFind s k).map (fun x => x + (cleanupLoop s orders).2.2.2 k) := by
  induction orders generalizing s with
  | nil =>
    refine ⟨rfl, fun k => ?_⟩
    show stockFind s k = (stockFind s k).map (fun x => x + 0)
    cases stockFind s k <;> simp
  | cons o rest ih =>
    have h1 : cleanupLoop s (o :: rest) =
        ((cleanupLoop (restore_stock s o.items).1 rest).1,
         (cleanupLoop (restore_stock s o.items).1 rest).2.1 + 1,
         (restore_stock s o.items).2.length +
           (cleanupLoop (restore_stock s o.items).1 rest).2.2.1,
         fun k => restoredQty (restore_stock s o.items).2 k +
           (cleanupLoop (restore_stock s o.items).1 rest).2.2.2 k) := rfl
    obtain ⟨ha, hb⟩ := ih (restore_stock s o.items).1
    rw [h1]
    refine ⟨by simp [ha], fun k => ?_⟩
    simp only
    rw [hb k, restore_stock_find]
    cases hsk : stockFind s k with
    | none => rfl
    | some x =>
      simp only [Option.map_some']
      have hsome : (stockFind s k).isSome := by rw [hsk]; rfl
      rw [restoredQty_restore o.items s k hsome]
      exact congrArg some (by ring)

/-- **C8**: each `cleanup_expired_orders` run processes exactly the unpaid
orders strictly older than `CHECKOUT_FORM_WINDOW_MINUTES +
PAYMENT_WINDOW_MINUTES + 5` minutes: the selection predicate is exactly
that formula, the reported `deleted_count` is the number of selected
orders, the surviving order table is exactly the non-selected orders
(paid or younger orders are never deleted), and every stock counter grows
by exactly the per-`(product, size)` aggregate the run reports (so
inventory is restored only through the selected orders). -/
theorem C8_cleanup_processes_exactly_expired (cfg : EnvConfig) (db : WebDB) :
    (∀ o, isExpiredUnpaid cfg o =
      (o.pagado = false &&
        decide (((cfg.CHECKOUT_FORM_WINDOW_MINUTES + cfg.PAYMENT_WINDOW_MINUTES + 5 : Int) : ℚ)
          < o.ageMinutes))) ∧
    (cleanup_expired_orders cfg db).2.deleted_count =
      (db.orders.filter (isExpiredUnpaid cfg)).length ∧
    (cleanup_expired_orders cfg db).1.orders =
      db.orders.filter (fun o => !isExpiredUnpaid cfg o) ∧
    (∀ k, stockFind (cleanup_expired_orders cfg db).1.stock k =
      (stockFind db.stock k).map
        (fun x => x + (cleanup_expired_orders cfg db).2.stock_details k)) := by
  obtain ⟨ha, hb⟩ := cleanupLoop_spec (db.orders.filter (isExpiredUnpaid cfg)) db.stock
  exact ⟨fun o => rfl, ha, rfl, hb⟩

theorem find?_map_update (orders : List WebOrder) (oid j : Nat) (f : WebOrder → WebOrder)
    (hf : ∀ o, (f o).id = o.id) :
    (orders.map (fun o => if o.id = oid then f o else o)).find?
        (fun o => o.id = j) =
      (orders.find? (fun o => o.id = j)).map
        (fun o => if o.id = oid then f o else o) := by
  induction orders with
  | nil => rfl
  | cons o rest ih =>
    have hid : (if o.id = oid then f o else o).id = o.id := by
      by_cases ho : o.id = oid <;> simp [ho, hf]
    by_cases h : o.id = j
    · rw [List.map_cons,
        List.find?_cons_of_pos _ (by simp only [decide_eq_true_eq]; rw [hid]; exact h),
        List.find?_cons_of_pos _ (by simp only [decide_eq_true_eq]; exact h)]
      rfl
    · rw [List.map_cons,
        List.find?_cons_of_neg _ (by simp only [decide_eq_true_eq]; rw [hid]; exact h),
        List.find?_cons_of_neg _ (by simp only [decide_eq_true_eq]; exact h), ih]

theorem findOrder_markPaid (db : WebDB) (oid : Nat) (o : WebOrder)
    (hfind : findOrder db oid = some o) :
    findOrder (markPaidAndEmail db oid) oid = some { o with pagado := true } := by
  have hoid : o.id = oid := by
    have := List.find?_some hfind
    simpa using this
  show (db.orders.map (fun x => if x.id = oid then { x with pagado := true } else x)).find?
      (fun x => x.id = oid) = some { o with pagado := true }
  rw [find?_map_update db.orders oid oid (fun x => { x with pagado := true })
    (fun _ => rfl)]
  rw [show db.orders.find? (fun x => x.id = oid) = some o from hfind]
  simp [hoid]

/-- **C3**: payment confirmation is idempotent per order.  For an existing
unpaid order, the first successful signal — webhook push or gateway-paid
browser return — performs the single unpaid→paid transition and sends
exactly one confirmation email; on the resulting state a second webhook
delivery or a second paid browser return changes nothing, sends nothing,
and still reports success (`{"received": True}` / redirect to the
success page). -/
theorem C3_confirmPaid_idempotent (db : WebDB) (oid : Nat) (o : WebOrder)
    (ty ps : String) (gmeta : Option Nat)
    (hfind : findOrder db oid = some o) (hunpaid : o.pagado = false) :
    stripeWebhookPost db true ⟨true, ty, some oid, ps⟩ =
      (markPaidAndEmail db oid, .received) ∧
    stripeReturnGet db (some oid) none true true (some ⟨gmeta, "paid"⟩) =
      (markPaidAndEmail db oid, .redirectSuccess o.codigo) ∧
    (markPaidAndEmail db oid).emailsSent = db.emailsSent + 1 ∧
    findOrder (markPaidAndEmail db oid) oid = some { o with pagado := true } ∧
    stripeWebhookPost (markPaidAndEmail db oid) true ⟨true, ty, some oid, ps⟩ =
      (markPaidAndEmail db oid, .received) ∧
    stripeReturnGet (markPaidAndEmail db oid) (some oid) none true true
        (some ⟨gmeta, "paid"⟩) =
      (markPaidAndEmail db oid, .redirectSuccess o.codigo) := by
  have hoid : o.id = oid := by
    have := List.find?_some hfind
    simpa using this
  have hpaidfind := findOrder_markPaid db oid o hfind
  refine ⟨?_, ?_, rfl, hpaidfind, ?_, ?_⟩
  · simp [stripeWebhookPost, hfind, hunpaid, hoid]
  · simp [stripeReturnGet, Option.bind, hfind, hunpaid, hoid, returnFallback]
  · simp [stripeWebhookPost, hpaidfind]
  · simp [stripeReturnGet, Option.bind, hpaidfind, returnFallback]

/-- Witness for `C3_confirmPaid_idempotent`: a one-order database; the
webhook marks it paid with one email, the repeated webhook is a pure
no-op that still answers `received`. -/
theorem C3_confirmPaid_idempotent_witness :
    stripeWebhookPost ⟨[((1, 42), 3)], [{ id := 1, codigo := 77, usuario := none, pagado := false, ageMinutes := 0 }], 0, 2⟩ true ⟨true, "checkout.session.completed", some 1, "paid"⟩ =
      (markPaidAndEmail ⟨[((1, 42), 3)], [{ id := 1, codigo := 77, usuario := none, pagado := false, ageMinutes := 0 }], 0, 2⟩ 1, .received) ∧
    (markPaidAndEmail ⟨[((1, 42), 3)], [{ id := 1, codigo := 77, usuario := none, pagado := false, ageMinutes := 0 }], 0, 2⟩ 1).emailsSent = 0 + 1 ∧
    stripeWebhookPost (markPaidAndEmail ⟨[((1, 42), 3)], [{ id := 1, codigo := 77, usuario := none, pagado := false, ageMinutes := 0 }], 0, 2⟩ 1) true ⟨true, "checkout.session.completed", some 1, "paid"⟩ =
      (markPaidAndEmail ⟨[((1, 42), 3)], [{ id := 1, codigo := 77, usuario := none, pagado := false, ageMinutes := 0 }], 0, 2⟩ 1, .received) :=
  have h := C3_confirmPaid_idempotent
    ⟨[((1, 42), 3)], [{ id := 1, codigo := 77, usuario := none, pagado := false, ageMinutes := 0 }], 0, 2⟩ 1
    { id := 1, codigo := 77, usuario := none, pagado := false, ageMinutes := 0 }
    "checkout.session.completed" "paid" none rfl rfl
  ⟨h.1, h.2.2.1, h.2.2.2.2.1⟩

/-- **C4**: evaluation at the failing input.  The browser-pull path behaves
as claimed: a gateway session whose `payment_status` is not `"paid"`
changes nothing and renders the validating page.  But the push path does
not: `StripeWebhookView.post` never reads the event type or payment
outcome (despite its "Handle successful payment events" comment), so a
signature-valid `checkout.session.expired` event carrying the order id
marks the unpaid order paid and sends a confirmation email — a state
change where the claim requires a non-event. -/
theorem C4_failing_webhook_marks_expired_event_paid :
    stripeReturnGet ⟨[((1, 42), 3)], [{ id := 1, codigo := 77, usuario := none, pagado := false, ageMinutes := 0 }], 0, 2⟩ (some 1) none true true (some ⟨some 1, "unpaid"⟩) =
      (⟨[((1, 42), 3)], [{ id := 1, codigo := 77, usuario := none, pagado := false, ageMinutes := 0 }], 0, 2⟩, .renderValidating) ∧
    stripeWebhookPost ⟨[((1, 42), 3)], [{ id := 1, codigo := 77, usuario := none, pagado := false, ageMinutes := 0 }], 0, 2⟩ true ⟨true, "checkout.session.expired", some 1, "unpaid"⟩ =
      (⟨[((1, 42), 3)], [{ id := 1, codigo := 77, usuario := none, pagado := true, ageMinutes := 0 }], 1, 2⟩, .received) :=
  ⟨rfl, rfl⟩

/-- **C5** counterexample to the claim as stated: with one order-item
insertion failing (the untyped exception `create_order_from_items`
catches at line 563), the call reports failure yet the order row exists
and the stock reservation is still outstanding (5 − 2 = 3) — nothing was
rolled back; the source defers the cleanup to the expiration sweeper. -/
theorem C5_counterexample_item_failure_keeps_reservation :
    (create_order_from_items ⟨[((1, 42), 5)], [], 0, 1⟩
        [mkItem ⟨1, "X", 100, none⟩ 42 2] none [11, 12, 13, 14, 15] (some 0)).toOption.map
        (fun out => (out.success, out.error, out.order, out.db.stock, out.db.orders.length)) =
      some (false, some .itemInsertFailed, some 1, [((1, 42), 3)], 1) := rfl

/-- **C5** (amended): the transaction boundary encompasses the stock
reservation and the order-row insert — a reservation failure or an
exhausted code-retry leaves the database exactly as it was, and each
code collision rolls the attempt's reservation back before retrying —
but the `OrderItem` insert phase is not covered: if it fails, the
committed order row and the outstanding reservation are kept (with the
items inserted so far) and the call merely reports failure, leaving the
cleanup sweeper to reclaim them. -/
theorem C5_reservation_order_insert_atomic_items_not (db : WebDB) (cart : List CartItem)
    (user : Option Nat) (codes : List Nat) (n : Nat) (e : ReserveError)
    (stock' : Stock) (code : Nat) (vs : List VItem) (prices : PriceResult)
    (hne : cart.isEmpty = false)
    (hp : calculate_order_prices defaultEnvConfig cart none none = .ok prices)
    (hval : validateItemsFrom 0 cart = .ok vs) :
    (codeRetryLoop db.stock cart (db.orders.map (·.codigo)) codes = .reserveFail e →
      ∀ fa, create_order_from_items db cart user codes fa =
        .ok ⟨db, none, false, some (.reserveError e)⟩) ∧
    (codeRetryLoop db.stock cart (db.orders.map (·.codigo)) codes = .exhausted →
      ∀ fa, create_order_from_items db cart user codes fa =
        .ok ⟨db, none, false, some .codeExhausted⟩) ∧
    (codeRetryLoop db.stock cart (db.orders.map (·.codigo)) codes = .created stock' code →
      create_order_from_items db cart user codes (some n) =
        .ok ⟨⟨stock', db.orders ++ [{ id := db.nextId, codigo := code, usuario := user, pagado := false, ageMinutes := 0, subtotal := prices.subtotal, impuestos := prices.impuestos, coste_entrega := prices.coste_entrega, total := prices.total, items := (vs.map VItem.toOrderItem).take n }], db.emailsSent, db.nextId + 1⟩, some db.nextId, false, some .itemInsertFailed⟩) ∧
    (codeRetryLoop db.stock cart (db.orders.map (·.codigo)) codes = .created stock' code →
      create_order_from_items db cart user codes none =
        .ok ⟨⟨stock', db.orders ++ [{ id := db.nextId, codigo := code, usuario := user, pagado := false, ageMinutes := 0, subtotal := prices.subtotal, impuestos := prices.impuestos, coste_entrega := prices.coste_entrega, total := prices.total, items := vs.map VItem.toOrderItem }], db.emailsSent, db.nextId + 1⟩, some db.nextId, true, none⟩) := by
  refine ⟨fun hc fa => ?_, fun hc fa => ?_, fun hc => ?_, fun hc => ?_⟩ <;>
    simp [create_order_from_items, hne, hp, hval, hc, Bind.bind, Except.bind]

/-- Witness for `C5_reservation_order_insert_atomic_items_not` at a
concrete one-line cart: the reservation succeeds, the code is fresh, and
the injected item-insert failure commits the order with the reservation
outstanding. -/
theorem C5_reservation_order_insert_atomic_items_not_witness :
    create_order_from_items ⟨[((1, 42), 5)], [], 0, 1⟩ [mkItem ⟨1, "X", 100, none⟩ 42 2]
        none [11, 12, 13, 14, 15] (some 0) =
      .ok ⟨⟨[((1, 42), 3)], [] ++ [{ id := 1, codigo := 11, usuario := none, pagado := false, ageMinutes := 0, subtotal := (((calculate_order_prices defaultEnvConfig [mkItem ⟨1, "X", 100, none⟩ 42 2] none none).toOption.getD ⟨0, 0, 0, 0, 0⟩)).subtotal, impuestos := (((calculate_order_prices defaultEnvConfig [mkItem ⟨1, "X", 100, none⟩ 42 2] none none).toOption.getD ⟨0, 0, 0, 0, 0⟩)).impuestos, coste_entrega := (((calculate_order_prices defaultEnvConfig [mkItem ⟨1, "X", 100, none⟩ 42 2] none none).toOption.getD ⟨0, 0, 0, 0, 0⟩)).coste_entrega, total := (((calculate_order_prices defaultEnvConfig [mkItem ⟨1, "X", 100, none⟩ 42 2] none none).toOption.getD ⟨0, 0, 0, 0, 0⟩)).total, items := ([⟨⟨1, "X", 100, none⟩, 42, 2⟩].map VItem.toOrderItem).take 0 }], 0, 1 + 1⟩, some 1, false, some .itemInsertFailed⟩ :=
  (C5_reservation_order_insert_atomic_items_not ⟨[((1, 42), 5)], [], 0, 1⟩
    [mkItem ⟨1, "X", 100, none⟩ 42 2] none [11, 12, 13, 14, 15] 0
    .emptyCart [((1, 42), 3)] 11 [⟨⟨1, "X", 100, none⟩, 42, 2⟩]
    ((calculate_order_prices defaultEnvConfig [mkItem ⟨1, "X", 100, none⟩ 42 2]
      none none).toOption.getD ⟨0, 0, 0, 0, 0⟩)
    rfl rfl rfl).2.2.1 rfl

/-- **C6** counterexample to the claim as stated: an order 11 minutes old
(formWindow is 10) is accepted by the contact step — the submitted fields
are stored and the shopper is sent to the next step, with no
session-expired failure.  The age bound `11 > 10` is stated explicitly. -/
theorem C6_counterexample_form_step_ignores_window :
    checkoutContactPost ⟨[], [{ id := 1, codigo := 77, usuario := none, pagado := false, ageMinutes := 11 }], 0, 2⟩ (some 1) none (some ⟨"Ana", "García", "ana@example.com", "600111222"⟩) =
      (⟨[], [{ id := 1, codigo := 77, usuario := none, pagado := false, ageMinutes := 11, nombre := "Ana", apellido := "García", email := "ana@example.com", telefono := "600111222" }], 0, 2⟩, .redirectNext) ∧
    ((defaultEnvConfig.CHECKOUT_FORM_WINDOW_MINUTES : Int) : ℚ) < 11 :=
  ⟨rfl, by decide⟩

/-- **C6** (amended): every checkout form step (contact, shipping,
billing) re-validates on each invocation that the order still exists, is
unpaid and belongs to the current caller — a failed check redirects to
checkout start and stores nothing — but none of the three form steps
checks the order's age: with the order resolvable, a valid submission is
stored for any age whatsoever.  The `formWindow` age bound is enforced
only when the payment step is opened. -/
theorem C6_form_steps_revalidate_but_no_window (cfg : EnvConfig) (db : WebDB)
    (sid : Option Nat) (user : Option Nat) (o : WebOrder) (cf : ContactForm)
    (sf : ShippingForm) (bf : BillingForm) :
    (sid = none → getCheckoutOrder db sid user = none) ∧
    (∀ oid, sid = some oid → findUnpaidOrder db oid = none →
      getCheckoutOrder db sid user = none) ∧
    (∀ oid u v, sid = some oid → findUnpaidOrder db oid = some o → user = some u →
      o.usuario = some v → v ≠ u → getCheckoutOrder db sid user = none) ∧
    (getCheckoutOrder db sid user = none →
      checkoutContactPost db sid user (some cf) = (db, .redirectStart) ∧
      checkoutShippingPost db sid user (some sf) = (db, .redirectStart) ∧
      checkoutBillingPost db sid user (some bf) = (db, .redirectStart)) ∧
    (getCheckoutOrder db sid user = some o →
      checkoutContactPost db sid user (some cf) =
        (updateOrder db o.id (fun x => { x with nombre := cf.nombre, apellido := cf.apellido, email := cf.email, telefono := cf.telefono }), .redirectNext) ∧
      checkoutShippingPost db sid user (some sf) =
        (updateOrder db o.id (fun x => { x with direccion_envio := sf.direccion_envio, ciudad_envio := sf.ciudad_envio, codigo_postal_envio := sf.codigo_postal_envio }), .redirectNext) ∧
      checkoutBillingPost db sid user (some bf) =
        (updateOrder db o.id (fun x => { x with direccion_facturacion := bf.direccion_facturacion, ciudad_facturacion := bf.ciudad_facturacion, codigo_postal_facturacion := bf.codigo_postal_facturacion }), .redirectNext)) ∧
    (getCheckoutOrder db sid user = some o →
      ((cfg.CHECKOUT_FORM_WINDOW_MINUTES : Int) : ℚ) < o.ageMinutes →
      checkoutPaymentGet cfg db sid user = .formWindowExpired) := by
  refine ⟨?_, ?_, ?_, ?_, ?_, ?_⟩
  · intro h
    simp [getCheckoutOrder, h]
  · intro oid h hfind
    simp [getCheckoutOrder, h, hfind]
  · intro oid u v hsid hfind huser husr hne
    subst hsid
    subst huser
    simp [getCheckoutOrder, hfind, husr, hne]
  · intro h
    exact ⟨by simp [checkoutContactPost, h], by simp [checkoutShippingPost, h],
      by simp [checkoutBillingPost, h]⟩
  · intro h
    exact ⟨by simp [checkoutContactPost, h], by simp [checkoutShippingPost, h],
      by simp [checkoutBillingPost, h]⟩
  · intro h hage
    simp [checkoutPaymentGet, h, hage]

/-- Witness for `C6_form_steps_revalidate_but_no_window`: an order aged
11 minutes with the default 10-minute form window — the contact step still
stores the submitted fields, while opening the payment step reports the
expired form window. -/
theorem C6_form_steps_revalidate_but_no_window_witness :
    checkoutContactPost ⟨[], [{ id := 1, codigo := 77, usuario := none, pagado := false, ageMinutes := 11 }], 0, 2⟩ (some 1) none (some ⟨"Eva", "Ruiz", "eva@example.com", "600"⟩) =
      (updateOrder ⟨[], [{ id := 1, codigo := 77, usuario := none, pagado := false, ageMinutes := 11 }], 0, 2⟩ 1 (fun x => { x with nombre := "Eva", apellido := "Ruiz", email := "eva@example.com", telefono := "600" }), .redirectNext) ∧
    checkoutPaymentGet defaultEnvConfig ⟨[], [{ id := 1, codigo := 77, usuario := none, pagado := false, ageMinutes := 11 }], 0, 2⟩ (some 1) none = .formWindowExpired :=
  have h := C6_form_steps_revalidate_but_no_window defaultEnvConfig
    ⟨[], [{ id := 1, codigo := 77, usuario := none, pagado := false, ageMinutes := 11 }], 0, 2⟩
    (some 1) none { id := 1, codigo := 77, usuario := none, pagado := false, ageMinutes := 11 }
    ⟨"Eva", "Ruiz", "eva@example.com", "600"⟩ ⟨"", "", ""⟩ ⟨"", "", ""⟩
  ⟨(h.2.2.2.2.1 rfl).1, h.2.2.2.2.2 rfl (by decide)⟩

/-- **C7**: a payment attempt (`CheckoutPaymentView.post`) on an order
older than `CHECKOUT_FORM_WINDOW_MINUTES + PAYMENT_WINDOW_MINUTES` fails
with the expired-window redirect before reading the form, mutating
nothing — the order is not marked paid, no payment method is stored, and
the outbound gateway call is never made. -/
theorem C7_payment_window_enforced (cfg : EnvConfig) (db : WebDB) (sid : Option Nat)
    (user : Option Nat) (o : WebOrder) (form : Option String) (skc : Bool)
    (sc : Option String)
    (hgo : getCheckoutOrder db sid user = some o)
    (hage : ((cfg.CHECKOUT_FORM_WINDOW_MINUTES + cfg.PAYMENT_WINDOW_MINUTES : Int) : ℚ)
      < o.ageMinutes) :
    checkoutPaymentPost cfg db sid user form skc sc = (db, .windowExpired, false) := by
  have hage' : (cfg.CHECKOUT_FORM_WINDOW_MINUTES : ℚ) + (cfg.PAYMENT_WINDOW_MINUTES : ℚ)
      < o.ageMinutes := by push_cast at hage; exact hage
  simp [checkoutPaymentPost, hgo, hage']

/-- Witness for `C7_payment_window_enforced`: formWindow 10,
paymentWindow 5, a card payment attempt at minute 16 — rejected with the
window-expired response, database untouched, no gateway call. -/
theorem C7_payment_window_enforced_witness :
    checkoutPaymentPost defaultEnvConfig ⟨[], [{ id := 1, codigo := 77, usuario := none, pagado := false, ageMinutes := 16 }], 0, 2⟩ (some 1) none (some "tarjeta") true (some "https://checkout.stripe.example/s") =
      (⟨[], [{ id := 1, codigo := 77, usuario := none, pagado := false, ageMinutes := 16 }], 0, 2⟩, .windowExpired, false) :=
  C7_payment_window_enforced defaultEnvConfig
    ⟨[], [{ id := 1, codigo := 77, usuario := none, pagado := false, ageMinutes := 16 }], 0, 2⟩
    (some 1) none { id := 1, codigo := 77, usuario := none, pagado := false, ageMinutes := 16 }
    (some "tarjeta") true (some "https://checkout.stripe.example/s") rfl (by decide)

/-- **C10**: the price calculator on the spec's example — 2 units priced
100 with offer price 80 plus 1 unit priced 50 with no offer, default tax
21 % and delivery 5 — yields subtotal 210.00, discount 40.00, tax
(210+5)·0.21 = 45.15 (quantized to two decimals), and total
210 + 5 + 45.15 = 260.15. -/
theorem C10_price_calculator_example :
    calculate_order_prices defaultEnvConfig
      [mkItem ⟨1, "A", 100, some 80⟩ 42 2, mkItem ⟨2, "B", 50, none⟩ 40 1]
      none none =
    .ok { subtotal := 210, impuestos := 45.15, coste_entrega := 5,
          total := 260.15, descuento := 40 } := by
  simp [calculate_order_prices, priceLoop, mkItem, ZapatoRef.ofertaTruthy]
  norm_num [quantize2, roundHalfEvenInt, defaultEnvConfig]
